import Mathlib

/-!
A shallow embedding of `src/jquery.jumpmark.js` (the jQuery "jumpmark"
plugin): its configuration record, hash classification, offset arithmetic,
the `scrollTo` routine, the four event handlers (document-ready, link click,
popstate, hashchange), the wheel handler and the public `$.jumpmark` entry
point.  Pixel quantities are rationals; JS `parseInt` is modelled on decimal
numerals, with `none` standing for `NaN`.  String prefix/suffix tests
(`indexOf(p) == 0`, `substr(-n) === t`) are modelled on the character lists
underlying Lean strings.
-/

namespace Jumpmark

/-- Value of a list of decimal digit characters. -/
def digitsToNat (ds : List Char) : Nat :=
  ds.foldl (fun a c => 10 * a + (c.toNat - 48)) 0

/-- Longest leading digit run of `cs`, signed; `none` when there is no digit
(JS `NaN`). -/
def parseDigits (sign : Int) (cs : List Char) : Option Int :=
  let ds := cs.takeWhile Char.isDigit
  if ds.isEmpty then none else some (sign * (digitsToNat ds : Int))

/-- JS `parseInt` on decimal numerals: skip leading whitespace, optional
sign, then the longest digit run; `none` models `NaN`. -/
def parseIntJS (s : String) : Option Int :=
  let cs := s.data.dropWhile (fun c => c == ' ' || c == '\t' || c == '\n' || c == '\r')
  match cs with
  | '-' :: r => parseDigits (-1) r
  | '+' :: r => parseDigits 1 r
  | r => parseDigits 1 r

/-- The plugin options (`opts` in the source).  The source's field names
`actionPrefix` / `hashPrefix` are shortened to `actionPre` / `hashPre`. -/
structure Opts where
  actionPre : String
  hashPre : String
  clipOffset : String
  hopOffset : String
  animSpeed : ℚ
  disablePopstateAnim : Bool
deriving DecidableEq, Repr

/-- The default options of the source (lines 21-56). -/
def defaultOpts : Opts :=
  { actionPre := "!jump:", hashPre := "", clipOffset := "15%", hopOffset := "25%",
    animSpeed := 750, disablePopstateAnim := false }

/-- The full jump-mark marker `'#' + opts.actionPrefix + opts.hashPrefix`. -/
def jumpPre (o : Opts) : String := "#" ++ o.actionPre ++ o.hashPre

/-- `isJumpmark` (line 100-102): `hash.indexOf('#'+actionPrefix+hashPrefix) == 0`,
i.e. the marker is a prefix of the hash. -/
def isJumpmark (o : Opts) (hash : String) : Bool :=
  List.isPrefixOf (jumpPre o).data hash.data

/-- JS `s.substr(-p.length) === p`, i.e. `s` ends with `p` (for `s` shorter
than `p` both sides are `false`). -/
def strEndsWith (s p : String) : Bool :=
  List.isSuffixOf p.data s.data

/-- JS `s.substr(n)`: drop the first `n` characters. -/
def strDrop (s : String) (n : Nat) : String :=
  String.mk (s.data.drop n)

/-- `isClipOffsetRelative` (lines 108-110): `opts.clipOffset.substr(-1) == '%'`. -/
def isClipOffsetRelative (o : Opts) : Bool :=
  strEndsWith o.clipOffset ("%")

/-- `isHopOffsetRelative` (lines 116-118): `opts.hopOffset.substr(-1) == '%'`. -/
def isHopOffsetRelative (o : Opts) : Bool :=
  strEndsWith o.hopOffset ("%")

/-- `calcClipOffset` (lines 132-134):
`isClipOffsetRelative() ? $win.height()/100*parseInt(opts.clipOffset) : parseInt(opts.clipOffset)`.
`none` models the `NaN` outcome of `parseInt`. -/
def calcClipOffset (o : Opts) (winHeight : ℚ) : Option ℚ :=
  if isClipOffsetRelative o then
    (parseIntJS o.clipOffset).map (fun n : Int => winHeight / 100 * (n : ℚ))
  else
    (parseIntJS o.clipOffset).map (fun n : Int => (n : ℚ))

/-- `calcHopOffset` (lines 124-126), same shape as `calcClipOffset`. -/
def calcHopOffset (o : Opts) (winHeight : ℚ) : Option ℚ :=
  if isHopOffsetRelative o then
    (parseIntJS o.hopOffset).map (fun n : Int => winHeight / 100 * (n : ℚ))
  else
    (parseIntJS o.hopOffset).map (fun n : Int => (n : ℚ))

/-- The document: elements as `(id, offset().top)` pairs, plus
`documentElement.scrollHeight` and `documentElement.clientHeight` (the
latter coincides with `$win.height()`, the viewport height). -/
structure Doc where
  elems : List (String × ℚ)
  scrollHeight : ℚ
  clientHeight : ℚ
deriving DecidableEq

/-- `document.getElementById`, returning the element's document top offset. -/
def getElementById (d : Doc) (id : String) : Option ℚ :=
  (d.elems.find? (fun p => p.1 == id)).map (fun p => p.2)

/-- `calcTargetOffset` (lines 141-144):
`Math.min($(el).offset().top - calcClipOffset(), scrollHeight - clientHeight)`
then `offset > 0 ? offset : 0`.  When `calcClipOffset` is `NaN` the JS
comparison `NaN > 0` is false, so the function returns `0`. -/
def calcTargetOffset (o : Opts) (d : Doc) (elTop : ℚ) : ℚ :=
  match calcClipOffset o d.clientHeight with
  | some c =>
    let offset := min (elTop - c) (d.scrollHeight - d.clientHeight)
    if offset > 0 then offset else 0
  | none => 0

/-- `getTargetElement` (lines 151-153):
`doc.getElementById(hash.substr(1 + opts.actionPrefix.length))` — note the
stripped part is `'#' + actionPrefix` only, not the hashPrefix. -/
def getTargetElement (o : Opts) (d : Doc) (hash : String) : Option ℚ :=
  getElementById d (strDrop hash (1 + o.actionPre.length))

/-- The `target` argument of `scrollTo`: a pixel number, a hash string, or
an element/jQuery object (modelled by its document top offset). -/
inductive JTarget where
  | num (n : ℚ)
  | str (s : String)
  | el (top : ℚ)
deriving DecidableEq

/-- The `elOffset` computation of `scrollTo` (lines 168-186); `none` models
`elOffset` remaining `undefined` (silent no-op). -/
def resolveOffset (o : Opts) (d : Doc) (target : JTarget) : Option ℚ :=
  match target with
  | .num n => some n
  | .str s =>
    if isJumpmark o s then
      match getTargetElement o d s with
      | some top => some (calcTargetOffset o d top)
      | none =>
        let suffix := strDrop s (jumpPre o).length
        if suffix = "_top" then some 0
        else if suffix = "_bottom" then some (d.scrollHeight - d.clientHeight)
        else none
    else none
  | .el top => some (calcTargetOffset o d top)

/-- A jQuery animation on the viewport: its `scrollTop` target and easing. -/
structure Anim where
  target : ℚ
  ease : String
deriving DecidableEq

/-- The scrollable viewport (`$viewport` = `$('html, body')`): current
scroll position and the animations currently attached to it.  jQuery's
`.animate` appends to the queue; `.stop(true)` clears the queue and halts
the running animation. -/
structure Viewport where
  scrollTop : ℚ
  anims : List Anim
deriving DecidableEq

/-- The viewport operations `scrollTo` and the wheel handler perform. -/
inductive VpEff where
  | setScroll (x : ℚ)
  | stop
  | animate (target : ℚ) (ease : String)
deriving DecidableEq

/-- Effect of one viewport operation: `$viewport.scrollTop(x)` sets the
position instantly; `$viewport.stop(true)` clears all animations;
`$viewport.animate({scrollTop: t}, speed, ease)` enqueues an animation. -/
def applyEff (v : Viewport) : VpEff → Viewport
  | .setScroll x => { v with scrollTop := x }
  | .stop => { v with anims := [] }
  | .animate t e => { v with anims := v.anims ++ [{ target := t, ease := e }] }

def applyEffs (v : Viewport) (effs : List VpEff) : Viewport :=
  effs.foldl applyEff v

/-- The viewport operations performed by `scrollTo(target, doHop)`
(lines 162-207).  When `elOffset` stays `undefined` nothing happens; else an
optional instantaneous hop is followed by `$viewport.stop(true).animate(...)`.
A `NaN` hop offset makes `hopOffset < Math.abs(diffOffset)` false. -/
def scrollToEffs (o : Opts) (d : Doc) (v : Viewport) (target : JTarget) (doHop : Bool) :
    List VpEff :=
  match resolveOffset o d target with
  | none => []
  | some elOffset =>
    let hopOffset := calcHopOffset o d.clientHeight
    let diffOffset := elOffset - v.scrollTop
    let doesHop : Bool := doHop &&
      (match hopOffset with
       | some h => decide (h < |diffOffset|)
       | none => false)
    let hopEffs : List VpEff :=
      if doesHop then
        match hopOffset with
        | some h =>
          if diffOffset > 0 then [.setScroll (elOffset - h)] else [.setScroll (elOffset + h)]
        | none => []
      else []
    let animEase := if doesHop then "easeOutQuad" else "easeInOutQuad"
    hopEffs ++ [.stop, .animate elOffset animEase]

/-- `scrollTo` as a state transformer on the viewport. -/
def scrollTo (o : Opts) (d : Doc) (v : Viewport) (target : JTarget) (doHop : Bool) :
    Viewport :=
  applyEffs v (scrollToEffs o d v target doHop)

/-- The value the plugin stores under `state[PLUGIN_NAME]`: a scroll
snapshot (number) or a jump-mark hash (string). -/
inductive JValue where
  | num (n : ℚ)
  | str (s : String)
deriving DecidableEq

/-- The plugin's slice of a history entry's state blob. -/
structure HSt where
  jumpmark : Option JValue
deriving DecidableEq

/-- One history entry: URL before the fragment (`href.split('#')[0]`), the
fragment (`''` when absent) and the state blob (`none` = `null`). -/
structure HEntry where
  base : String
  hash : String
  state : Option HSt
deriving DecidableEq

/-- The world the handlers act on: document, viewport, the history stack
(`back` behind the current entry, `fwd` ahead of it), the
`ignoreHashChangeEvent` latch, and `history.scrollRestoration`. -/
structure World where
  doc : Doc
  vp : Viewport
  back : List HEntry
  cur : HEntry
  fwd : List HEntry
  ignoreHashChangeEvent : Bool
  scrollRestorationManual : Bool
deriving DecidableEq

/-- User-initiated back navigation: the browser moves to the previous
entry (before the popstate event is dispatched). -/
def historyBack (w : World) : Option World :=
  match w.back with
  | [] => none
  | h :: t => some { w with cur := h, back := t, fwd := w.cur :: w.fwd }

/-- User-initiated forward navigation. -/
def historyForward (w : World) : Option World :=
  match w.fwd with
  | [] => none
  | h :: t => some { w with cur := h, fwd := t, back := w.cur :: w.back }

/-- Turn a stored state value into a `scrollTo` target. -/
def jvalTarget : JValue → JTarget
  | .num n => .num n
  | .str s => .str s

/-- A click event on an `<a>` element: the link's fragment (`this.hash`),
the link's URL before the fragment (`this.href.split('#')[0]`), and whether
another listener already prevented the default. -/
structure ClickEvt where
  linkHash : String
  linkBase : String
  defaultPrevented : Bool
deriving DecidableEq

/-- The guard of the click handler (lines 225-237). -/
def clickApplies (o : Opts) (w : World) (e : ClickEvt) : Bool :=
  !e.defaultPrevented
    && isJumpmark o e.linkHash
    && (e.linkBase == w.cur.base)
    && ((getTargetElement o w.doc e.linkHash).isSome
        || strEndsWith e.linkHash ("_top")
        || strEndsWith e.linkHash ("_bottom"))

/-- The click handler (lines 223-255).  Returns the new world and whether
`evt.preventDefault()` was called. -/
def clickHandler (o : Opts) (w : World) (e : ClickEvt) : World × Bool :=
  if clickApplies o w e then
    -- save current state if no hash is present (replaceState, lines 242-246)
    let w1 :=
      if w.cur.hash = "" then
        let st0 := w.cur.state.getD { jumpmark := none }
        let st := { st0 with jumpmark := some (.num w.vp.scrollTop) }
        { w with cur := { w.cur with state := some st } }
      else w
    -- push a new entry only when the hash changes (lines 248-252)
    let w2 :=
      if w1.cur.hash ≠ e.linkHash then
        { w1 with
          back := w1.cur :: w1.back,
          cur := { base := e.linkBase, hash := e.linkHash,
                   state := some { jumpmark := some (.str e.linkHash) } },
          fwd := [] }
      else w1
    ({ w2 with vp := scrollTo o w2.doc w2.vp (.str e.linkHash) false }, true)
  else (w, false)

/-- The document-ready handler (lines 215-220): scroll to the location hash
with `hop = true` when it is a jump mark.  Also returns the viewport
operations it performed. -/
def loadHandler (o : Opts) (w : World) : World × List VpEff :=
  if isJumpmark o w.cur.hash then
    let effs := scrollToEffs o w.doc w.vp (.str w.cur.hash) true
    ({ w with vp := applyEffs w.vp effs }, effs)
  else (w, [])

/-- The popstate handler (lines 258-274), run after the browser has moved to
the landed entry (whose state the event carries).  The `setTimeout` that
clears the latch is modelled separately by `latchTimeout`. -/
def popstateHandler (o : Opts) (w : World) : World × List VpEff :=
  match w.cur.state with
  | some st =>
    match st.jumpmark with
    | some v =>
      let (w1, effs) :=
        if !o.disablePopstateAnim then
          let effs := scrollToEffs o w.doc w.vp (jvalTarget v) false
          ({ w with vp := applyEffs w.vp effs, scrollRestorationManual := true }, effs)
        else (w, [])
      ({ w1 with ignoreHashChangeEvent := true }, effs)
    | none => (w, [])
  | none => (w, [])

/-- The timeout scheduled by the popstate handler (lines 270-272). -/
def latchTimeout (w : World) : World :=
  { w with ignoreHashChangeEvent := false }

/-- The hashchange handler (lines 277-297). -/
def hashchangeHandler (o : Opts) (w : World) (defaultPrevented : Bool) :
    World × List VpEff :=
  if !defaultPrevented
      && !w.ignoreHashChangeEvent
      && isJumpmark o w.cur.hash
      && ((getTargetElement o w.doc w.cur.hash).isSome
          || strEndsWith w.cur.hash ("_top")
          || strEndsWith w.cur.hash ("_bottom")) then
    let w1 := { w with cur := { w.cur with
                  state := some { jumpmark := some (.str w.cur.hash) } } }
    let effs := scrollToEffs o w1.doc w1.vp (.str w.cur.hash) false
    ({ w1 with vp := applyEffs w1.vp effs }, effs)
  else (w, [])

/-- The wheel handler (lines 300-302): `$viewport.stop(true)`. -/
def wheelHandler (w : World) : World :=
  { w with vp := applyEff w.vp .stop }

/-- Scroll position once all pending animations have played out. -/
def settledScrollTop (v : Viewport) : ℚ :=
  ((v.anims.getLast?).map Anim.target).getD v.scrollTop

/-- Number of animations a list of viewport operations starts. -/
def countAnimate (l : List VpEff) : Nat :=
  (l.filter (fun e => match e with | .animate _ _ => true | _ => false)).length

/-- A partial options object, merged by `$.extend(opts, arg)`. -/
structure OptsPatch where
  actionPre : Option String := none
  hashPre : Option String := none
  clipOffset : Option String := none
  hopOffset : Option String := none
  animSpeed : Option ℚ := none
  disablePopstateAnim : Option Bool := none
deriving DecidableEq

/-- `$.extend(opts, arg)`: fields present in `arg` overwrite `opts`. -/
def extendOpts (o : Opts) (p : OptsPatch) : Opts :=
  { actionPre := p.actionPre.getD o.actionPre,
    hashPre := p.hashPre.getD o.hashPre,
    clipOffset := p.clipOffset.getD o.clipOffset,
    hopOffset := p.hopOffset.getD o.hopOffset,
    animSpeed := p.animSpeed.getD o.animSpeed,
    disablePopstateAnim := p.disablePopstateAnim.getD o.disablePopstateAnim }

/-- The possible arguments of the public `$.jumpmark` callable: a string, a
jQuery object, an HTMLElement (both modelled by their document top offset),
a number, a plain object, or any other value (represented by a boolean). -/
inductive JArg where
  | str (s : String)
  | jqueryObj (top : ℚ)
  | htmlElement (top : ℚ)
  | num (n : ℚ)
  | plainObj (p : OptsPatch)
  | other
deriving DecidableEq

/-- JS `typeof` on each argument shape. -/
def typeofArg : JArg → String
  | .str _ => "string"
  | .jqueryObj _ => "object"
  | .htmlElement _ => "object"
  | .num _ => "number"
  | .plainObj _ => "object"
  | .other => "boolean"

/-- `arg instanceof jQuery`. -/
def instanceOfJQuery : JArg → Bool
  | .jqueryObj _ => true
  | _ => false

/-- `arg instanceof HTMLElement`. -/
def instanceOfHTMLElement : JArg → Bool
  | .htmlElement _ => true
  | _ => false

/-- `arg.toString() == '[object Object]'` — true exactly for plain objects
(jQuery objects and elements stringify differently, but they never reach
this test). -/
def toStringIsPlainObject : JArg → Bool
  | .plainObj _ => true
  | _ => false

/-- The `scrollTo` target an argument of the first branch stands for. -/
def argTarget : JArg → JTarget
  | .str s => .str s
  | .jqueryObj top => .el top
  | .htmlElement top => .el top
  | .num n => .num n
  | .plainObj _ => .num 0
  | .other => .num 0

/-- The patch carried by a plain-object argument. -/
def argPatch : JArg → OptsPatch
  | .plainObj p => p
  | _ => {}

/-- Outcome of a `$.jumpmark(arg)` call. -/
inductive EntryResult where
  | scrolled (v : Viewport)
  | configured (o : Opts)
  | errored (msg : String)
deriving DecidableEq

/-- The public entry point `$.jumpmark` (lines 305-313).  `scrollTo(arg)`
is called without `doHop`, so `doHop` is the falsy `undefined`. -/
def jumpmarkEntry (o : Opts) (d : Doc) (v : Viewport) (arg : JArg) : EntryResult :=
  if typeofArg arg == "string" || instanceOfJQuery arg || instanceOfHTMLElement arg then
    .scrolled (scrollTo o d v (argTarget arg) false)
  else if typeofArg arg == "object" && toStringIsPlainObject arg then
    .configured (extendOpts o (argPatch arg))
  else
    .errored ("Parameter must be String, HTMLElement, jQuery or configuration Object")

/-! ### Concrete fixtures used by witnesses and counterexamples -/

/-- A sample document: element `section2` at top offset 2000, scrollable
height 3000, viewport height 1000 (the spec's own example). -/
def exDoc : Doc :=
  { elems := [("section2", 2000)], scrollHeight := 3000, clientHeight := 1000 }

/-- A document containing an element whose id is `_top`. -/
def topDoc : Doc :=
  { elems := [("_top", 500)], scrollHeight := 3000, clientHeight := 1000 }

/-- A viewport at rest at the top. -/
def v0 : Viewport := { scrollTop := 0, anims := [] }

/-- A world whose address carries the non-qualifying hash `#other`. -/
def exWorld : World :=
  { doc := exDoc, vp := v0, back := [],
    cur := { base := "http://example.com/", hash := "#other",
             state := some { jumpmark := some (.str "#other") } },
    fwd := [], ignoreHashChangeEvent := false, scrollRestorationManual := false }

/-- A click on a link with the non-qualifying hash `#other`. -/
def exClick : ClickEvt :=
  { linkHash := "#other", linkBase := "http://example.com/", defaultPrevented := false }

/-- A world whose address already shows `#!jump:section2`. -/
def sameHashWorld : World :=
  { doc := exDoc, vp := v0, back := [],
    cur := { base := "http://example.com/", hash := "#!jump:section2",
             state := some { jumpmark := some (.str "#!jump:section2") } },
    fwd := [], ignoreHashChangeEvent := false, scrollRestorationManual := false }

/-- A click on a link whose hash equals `sameHashWorld`'s current hash. -/
def sameHashClick : ClickEvt :=
  { linkHash := "#!jump:section2", linkBase := "http://example.com/",
    defaultPrevented := false }

/-- A document with elements `a` at 1000 and `b` at 2000. -/
def abDoc : Doc :=
  { elems := [("a", 1000), ("b", 2000)], scrollHeight := 3000, clientHeight := 1000 }

/-- A world with no hash in the address, scrolled to 400. -/
def noHashWorld : World :=
  { doc := abDoc, vp := { scrollTop := 400, anims := [] }, back := [],
    cur := { base := "http://example.com/", hash := "", state := none },
    fwd := [], ignoreHashChangeEvent := false, scrollRestorationManual := false }

/-- A click on a link to `#!jump:b`. -/
def clickB : ClickEvt :=
  { linkHash := "#!jump:b", linkBase := "http://example.com/", defaultPrevented := false }

/-- A world just landed on by a history pop whose entry carries a recorded
scroll snapshot of 400. -/
def popWorld : World :=
  { doc := abDoc, vp := v0, back := [],
    cur := { base := "http://example.com/", hash := "",
             state := some { jumpmark := some (.num 400) } },
    fwd := [], ignoreHashChangeEvent := false, scrollRestorationManual := false }

/-- A world whose address already shows `#!jump:a` (recorded by an earlier
navigation) and which the user has since scrolled to 400. -/
def hashWorld : World :=
  { doc := abDoc, vp := { scrollTop := 400, anims := [] },
    back := [{ base := "http://example.com/", hash := "", state := none }],
    cur := { base := "http://example.com/", hash := "#!jump:a",
             state := some { jumpmark := some (.str "#!jump:a") } },
    fwd := [], ignoreHashChangeEvent := false, scrollRestorationManual := false }

/-- The world after clicking the `#!jump:b` link in `hashWorld`. -/
def postClickWorld : World := (clickHandler defaultOpts hashWorld clickB).1

/-- The world after the browser pops back from `postClickWorld`. -/
def backWorld : World := (historyBack postClickWorld).getD postClickWorld

/-! ### Helper lemmas -/

theorem exHop : calcHopOffset defaultOpts 1000 = some 250 := by
  have h1 : isHopOffsetRelative defaultOpts = true := by decide
  have h2 : parseIntJS defaultOpts.hopOffset = some 25 := by decide
  unfold calcHopOffset
  rw [if_pos h1, h2, Option.map_some']
  norm_num

theorem exClip : calcClipOffset defaultOpts 1000 = some 150 := by
  have h1 : isClipOffsetRelative defaultOpts = true := by decide
  have h2 : parseIntJS defaultOpts.clipOffset = some 15 := by decide
  unfold calcClipOffset
  rw [if_pos h1, h2, Option.map_some']
  norm_num

theorem exTargetOffset : calcTargetOffset defaultOpts exDoc 2000 = 1850 := by
  unfold calcTargetOffset
  have h : exDoc.clientHeight = 1000 := rfl
  rw [h, exClip]
  norm_num [exDoc]

theorem exResolve : resolveOffset defaultOpts exDoc (.str "#!jump:section2") = some 1850 := by
  have hj : isJumpmark defaultOpts "#!jump:section2" = true := by decide
  have hel : getTargetElement defaultOpts exDoc "#!jump:section2" = some 2000 := by decide
  simp only [resolveOffset, hj, if_true, hel, exTargetOffset]

theorem ite_pos_eq_max (a : ℚ) : (if a > 0 then a else 0) = max 0 a := by
  rcases le_or_lt a 0 with h | h
  · rw [if_neg (not_lt.mpr h), max_eq_left h]
  · rw [if_pos h, max_eq_right h.le]

/-! ### Claims -/

/-- Claim C1: for a target element at document top offset `Y`, with the
configured clip offset resolving to `C` pixels, document scrollable height
`D` and viewport height `V`, the resolved scroll offset equals
`max(0, min(Y − C, D − V))`; the clip offset resolves to
percent × viewport height / 100 when the configured value ends in '%', else
to its literal pixel value. -/
theorem C1_target_offset (o : Opts) (d : Doc) (Y : ℚ) (k : Int)
    (h : parseIntJS o.clipOffset = some k) :
    calcTargetOffset o d Y =
      max 0 (min
        (Y - (if strEndsWith o.clipOffset ("%")
              then (k : ℚ) * d.clientHeight / 100
              else (k : ℚ)))
        (d.scrollHeight - d.clientHeight)) := by
  unfold calcTargetOffset calcClipOffset isClipOffsetRelative
  rw [h]
  by_cases hp : strEndsWith o.clipOffset ("%")
  · simp only [hp, if_true, Option.map_some']
    rw [ite_pos_eq_max]
    ring_nf
  · simp only [hp, if_false, Option.map_some', Bool.false_eq_true]
    rw [ite_pos_eq_max]

/-- Witness for C1 at the spec's own example: clipOffset `'15%'`, viewport
height 1000, document height 3000, element at 2000 → offset 1850. -/
theorem C1_target_offset_witness :
    parseIntJS defaultOpts.clipOffset = some 15 ∧
    calcTargetOffset defaultOpts
        { elems := [("section2", 2000)], scrollHeight := 3000, clientHeight := 1000 } 2000 =
      max 0 (min
        (2000 - (if strEndsWith defaultOpts.clipOffset ("%")
                 then (15 : ℚ) * 1000 / 100
                 else (15 : ℚ)))
        (3000 - 1000)) :=
  ⟨by decide,
   C1_target_offset defaultOpts
     { elems := [("section2", 2000)], scrollHeight := 3000, clientHeight := 1000 }
     2000 15 (by decide)⟩

/-- Claim C2: for a `scrollTo` call with `hop = true` resolving to final
offset `F`, with hop offset `H` pixels: when `|F − current| > H` the scroll
position is first set instantaneously to `F − H` (positive delta) or `F + H`
(negative delta) before the animation starts; when `|F − current| ≤ H` no
instantaneous jump occurs and the animation starts from the original
position. -/
theorem C2_hop (o : Opts) (d : Doc) (v : Viewport) (t : JTarget) (F H : ℚ)
    (hF : resolveOffset o d t = some F)
    (hH : calcHopOffset o d.clientHeight = some H) :
    (H < |F - v.scrollTop| →
      ((F - v.scrollTop > 0 →
          scrollToEffs o d v t true =
            [.setScroll (F - H), .stop, .animate F "easeOutQuad"] ∧
          (scrollTo o d v t true).scrollTop = F - H) ∧
       (F - v.scrollTop < 0 →
          scrollToEffs o d v t true =
            [.setScroll (F + H), .stop, .animate F "easeOutQuad"] ∧
          (scrollTo o d v t true).scrollTop = F + H))) ∧
    (|F - v.scrollTop| ≤ H →
      scrollToEffs o d v t true = [.stop, .animate F "easeInOutQuad"] ∧
      (scrollTo o d v t true).scrollTop = v.scrollTop) := by
  unfold scrollTo applyEffs
  simp only [scrollToEffs, hF, hH, Bool.true_and, decide_eq_true_eq]
  constructor
  · intro hlt
    constructor
    · intro hpos
      rw [if_pos hlt, if_pos hlt, if_pos hpos]
      exact ⟨rfl, rfl⟩
    · intro hneg
      rw [if_pos hlt, if_pos hlt, if_neg (not_lt.mpr hneg.le)]
      exact ⟨rfl, rfl⟩
  · intro hle
    rw [if_neg (not_lt.mpr hle), if_neg (not_lt.mpr hle)]
    exact ⟨rfl, rfl⟩

/-- Witness for C2: default options, viewport height 1000 (hop offset 250),
element at 2000 (resolved offset 1850), current scroll 0: the hop sets the
position to 1600 and the animation then runs to 1850. -/
theorem C2_hop_witness :
    resolveOffset defaultOpts exDoc (.str "#!jump:section2") = some 1850 ∧
    calcHopOffset defaultOpts exDoc.clientHeight = some 250 ∧
    scrollToEffs defaultOpts exDoc v0 (.str "#!jump:section2") true =
      [.setScroll (1850 - 250), .stop, .animate 1850 "easeOutQuad"] ∧
    (scrollTo defaultOpts exDoc v0 (.str "#!jump:section2") true).scrollTop = 1850 - 250 :=
  have hlt : (250 : ℚ) < |1850 - v0.scrollTop| := by
    rw [show |(1850 : ℚ) - v0.scrollTop| = 1850 from by norm_num [v0]]
    norm_num
  have hpos : (1850 : ℚ) - v0.scrollTop > 0 := by norm_num [v0]
  ⟨exResolve, exHop,
   (((C2_hop defaultOpts exDoc v0 (.str "#!jump:section2") 1850 250 exResolve exHop).1
       hlt).1 hpos).1,
   (((C2_hop defaultOpts exDoc v0 (.str "#!jump:section2") 1850 250 exResolve exHop).1
       hlt).1 hpos).2⟩

/-- Claim C3: for every hash string that does not begin with
`'#' + actionPrefix + hashPrefix`, `scrollTo` and every navigation handler
(load, click, popstate, hashchange) leave the scroll position and the
history stack unchanged. -/
theorem C3_noop (o : Opts) (w : World) (s : String) (e : ClickEvt)
    (d : Doc) (v : Viewport) (doHop dp : Bool)
    (h : isJumpmark o s = false) :
    scrollTo o d v (.str s) doHop = v ∧
    (e.linkHash = s → clickHandler o w e = (w, false)) ∧
    (w.cur.hash = s → loadHandler o w = (w, [])) ∧
    (w.cur.hash = s → hashchangeHandler o w dp = (w, [])) ∧
    (w.cur.state = some { jumpmark := some (.str s) } →
      (popstateHandler o w).1.vp = w.vp ∧
      (popstateHandler o w).1.back = w.back ∧
      (popstateHandler o w).1.cur = w.cur ∧
      (popstateHandler o w).1.fwd = w.fwd) := by
  refine ⟨?_, ?_, ?_, ?_, ?_⟩
  · simp [scrollTo, scrollToEffs, resolveOffset, h, applyEffs]
  · intro he
    simp [clickHandler, clickApplies, he, h]
  · intro hh
    simp [loadHandler, hh, h]
  · intro hh
    simp [hashchangeHandler, hh, h]
  · intro hst
    rcases hb : o.disablePopstateAnim with _ | _ <;>
      simp [popstateHandler, hst, jvalTarget, scrollToEffs, resolveOffset, h,
        applyEffs, hb]

/-- Witness for C3: the hash `#other` does not qualify under the default
options; `scrollTo` and all handlers leave the example world untouched. -/
theorem C3_noop_witness :
    isJumpmark defaultOpts "#other" = false ∧
    scrollTo defaultOpts exDoc v0 (.str "#other") false = v0 ∧
    clickHandler defaultOpts exWorld exClick = (exWorld, false) ∧
    loadHandler defaultOpts exWorld = (exWorld, []) ∧
    hashchangeHandler defaultOpts exWorld false = (exWorld, []) ∧
    (popstateHandler defaultOpts exWorld).1.vp = exWorld.vp :=
  ⟨by decide,
   (C3_noop defaultOpts exWorld "#other" exClick exDoc v0 false false (by decide)).1,
   (C3_noop defaultOpts exWorld "#other" exClick exDoc v0 false false (by decide)).2.1 rfl,
   (C3_noop defaultOpts exWorld "#other" exClick exDoc v0 false false (by decide)).2.2.1 rfl,
   (C3_noop defaultOpts exWorld "#other" exClick exDoc v0 false false (by decide)).2.2.2.1 rfl,
   ((C3_noop defaultOpts exWorld "#other" exClick exDoc v0 false false (by decide)).2.2.2.2
     rfl).1⟩

theorem topTargetOffset : calcTargetOffset defaultOpts topDoc 500 = 350 := by
  unfold calcTargetOffset
  have h : topDoc.clientHeight = 1000 := rfl
  rw [h, exClip]
  norm_num [topDoc]

/-- Counterexample to C4: with the default options and a document that has
an element with id `_top` at top offset 500 (viewport 1000, clip offset
150), the hash `#!jump:_top` resolves to that element's clamped offset 350,
not to 0 — element presence overrides the `_top` special target, because
`scrollTo` tries `getTargetElement(target) || suffix` first (line 174). -/
theorem C4_counterexample :
    resolveOffset defaultOpts topDoc (.str "#!jump:_top") = some 350 ∧ (350 : ℚ) ≠ 0 := by
  constructor
  · have hj : isJumpmark defaultOpts "#!jump:_top" = true := by decide
    have hel : getTargetElement defaultOpts topDoc "#!jump:_top" = some 500 := by decide
    simp only [resolveOffset, hj, if_true, hel, topTargetOffset]
  · norm_num

/-- Claim C4 (amended): for every qualifying hash the plugin first looks up
the hash minus `'#' + actionPrefix` as an element id (so the hashPrefix is
part of the looked-up id); a found element's clamped offset wins even for
the suffixes `_top`/`_bottom`.  Only when no element matches does the
suffix after the full prefix resolve specially: `_top` → 0, `_bottom` →
documentHeight − viewportHeight; any other suffix without a matching
element leaves the hash unresolved, and `scrollTo` is then a silent
no-op. -/
theorem C4_amended (o : Opts) (d : Doc) (v : Viewport) (s : String) (top : ℚ)
    (doHop : Bool) (hj : isJumpmark o s = true) :
    (getTargetElement o d s = some top →
       resolveOffset o d (.str s) = some (calcTargetOffset o d top)) ∧
    (getTargetElement o d s = none →
       (strDrop s (jumpPre o).length = "_top" →
          resolveOffset o d (.str s) = some 0) ∧
       (strDrop s (jumpPre o).length = "_bottom" →
          resolveOffset o d (.str s) = some (d.scrollHeight - d.clientHeight)) ∧
       (strDrop s (jumpPre o).length ≠ "_top" →
          strDrop s (jumpPre o).length ≠ "_bottom" →
          resolveOffset o d (.str s) = none)) ∧
    (resolveOffset o d (.str s) = none → scrollTo o d v (.str s) doHop = v) := by
  refine ⟨?_, ?_, ?_⟩
  · intro hel
    simp only [resolveOffset, hj, if_true, hel]
  · intro hel
    refine ⟨?_, ?_, ?_⟩
    · intro ht
      simp [resolveOffset, hj, hel, ht]
    · intro hb
      simp [resolveOffset, hj, hel, hb]
    · intro ht hb
      simp [resolveOffset, hj, hel, ht, hb]
  · intro hnone
    simp [scrollTo, scrollToEffs, hnone, applyEffs]

/-- Witness for C4 (amended): `#!jump:_top` resolves to the `_top` element's
offset when such an element exists (`topDoc`), and to 0 when none does
(`exDoc`). -/
theorem C4_amended_witness :
    isJumpmark defaultOpts "#!jump:_top" = true ∧
    (getTargetElement defaultOpts topDoc "#!jump:_top" = some 500 →
       resolveOffset defaultOpts topDoc (.str "#!jump:_top") =
         some (calcTargetOffset defaultOpts topDoc 500)) ∧
    resolveOffset defaultOpts exDoc (.str "#!jump:_top") = some 0 :=
  ⟨by decide,
   (C4_amended defaultOpts topDoc v0 "#!jump:_top" 500 false (by decide)).1,
   (((C4_amended defaultOpts exDoc v0 "#!jump:_top" 0 false (by decide)).2.1
     (by decide)).1 (by decide))⟩

/-- Counterexample to C7: a number argument does not trigger `scrollTo`;
it falls through to the error branch, because the first branch of
`$.jumpmark` tests only for strings, jQuery objects and HTMLElements. -/
theorem C7_counterexample :
    jumpmarkEntry defaultOpts exDoc v0 (.num 100) =
      .errored ("Parameter must be String, HTMLElement, jQuery or configuration Object") :=
  rfl

/-- Claim C7 (amended): a string hash or an element reference (jQuery
object or HTMLElement) triggers `scrollTo`; a plain configuration object
merges into the current configuration; any other argument — including a
number — is reported as a synchronous error to the caller. -/
theorem C7_amended (o : Opts) (d : Doc) (v : Viewport) :
    (∀ s, jumpmarkEntry o d v (.str s) = .scrolled (scrollTo o d v (.str s) false)) ∧
    (∀ t, jumpmarkEntry o d v (.jqueryObj t) = .scrolled (scrollTo o d v (.el t) false)) ∧
    (∀ t, jumpmarkEntry o d v (.htmlElement t) = .scrolled (scrollTo o d v (.el t) false)) ∧
    (∀ p, jumpmarkEntry o d v (.plainObj p) = .configured (extendOpts o p)) ∧
    (∀ n, jumpmarkEntry o d v (.num n) =
      .errored ("Parameter must be String, HTMLElement, jQuery or configuration Object")) ∧
    jumpmarkEntry o d v .other =
      .errored ("Parameter must be String, HTMLElement, jQuery or configuration Object") :=
  ⟨fun _ => rfl, fun _ => rfl, fun _ => rfl, fun _ => rfl, fun _ => rfl, rfl⟩

theorem string_append_data (s t : String) : (s ++ t).data = s.data ++ t.data := by
  cases s
  cases t
  rfl

/-- A qualifying hash is never the empty string: the marker starts with '#'. -/
theorem isJumpmark_ne_empty (o : Opts) (s : String) (h : isJumpmark o s = true) :
    s ≠ "" := by
  intro hs
  subst hs
  unfold isJumpmark jumpPre at h
  rw [string_append_data, string_append_data] at h
  simp [List.isPrefixOf] at h

theorem clickApplies_isJumpmark (o : Opts) (w : World) (e : ClickEvt)
    (h : clickApplies o w e = true) : isJumpmark o e.linkHash = true := by
  unfold clickApplies at h
  simp only [Bool.and_eq_true] at h
  exact h.1.1.2

/-- Claim C10: for a handled click whose link hash equals the current
address hash, no history entry is pushed (the stack, the current entry and
the forward list are untouched) while `scrollTo` is still invoked; a new
entry is pushed exactly when the clicked hash differs. -/
theorem C10_push_only_on_change (o : Opts) (w : World) (e : ClickEvt)
    (happ : clickApplies o w e = true) :
    (w.cur.hash = e.linkHash →
       (clickHandler o w e).1.back = w.back ∧
       (clickHandler o w e).1.cur = w.cur ∧
       (clickHandler o w e).1.fwd = w.fwd ∧
       (clickHandler o w e).1.vp = scrollTo o w.doc w.vp (.str e.linkHash) false) ∧
    (w.cur.hash ≠ e.linkHash →
       (clickHandler o w e).1.back.length = w.back.length + 1) := by
  have hj : isJumpmark o e.linkHash = true := clickApplies_isJumpmark o w e happ
  have hne : e.linkHash ≠ "" := isJumpmark_ne_empty o e.linkHash hj
  constructor
  · intro heq
    have h0 : ¬ w.cur.hash = "" := by
      rw [heq]; exact hne
    simp only [clickHandler, happ, if_true, if_neg h0]
    rw [if_neg (by simpa using heq)]
    exact ⟨rfl, rfl, rfl, rfl⟩
  · intro hneq
    by_cases h0 : w.cur.hash = ""
    · simp only [clickHandler, happ, if_true, if_pos h0]
      rw [if_pos (by simpa using hneq)]
      simp
    · simp only [clickHandler, happ, if_true, if_neg h0]
      rw [if_pos (by simpa using hneq)]
      simp

/-- Witness for C10: clicking `#!jump:section2` while the address already
shows `#!jump:section2` scrolls but leaves the history untouched. -/
theorem C10_push_only_on_change_witness :
    clickApplies defaultOpts sameHashWorld sameHashClick = true ∧
    (clickHandler defaultOpts sameHashWorld sameHashClick).1.back = [] :=
  ⟨by decide,
   ((C10_push_only_on_change defaultOpts sameHashWorld sameHashClick (by decide)).1 rfl).1⟩

/-- Counterexample to C5: a handled click (all of C5's conditions hold,
and `preventDefault` is called) whose link hash equals the hash already in
the address pushes no history entry: stack and current entry are
unchanged.  The claim's unconditional "pushes a new history entry" is
false. -/
theorem C5_counterexample :
    clickApplies defaultOpts sameHashWorld sameHashClick = true ∧
    (clickHandler defaultOpts sameHashWorld sameHashClick).2 = true ∧
    (clickHandler defaultOpts sameHashWorld sameHashClick).1.back = sameHashWorld.back ∧
    (clickHandler defaultOpts sameHashWorld sameHashClick).1.cur = sameHashWorld.cur := by
  refine ⟨by decide, by decide, by decide, by decide⟩

/-- Claim C5 (amended): for every handled click (no listener prevented the
default, the hash qualifies, the link points to the same document, and the
target exists): the handler prevents the browser's default; when no hash is
present it snapshots the current scroll position into the current entry's
state and pushes a new entry recording the destination hash; when a hash is
present it pushes only if the clicked hash differs from the current one;
and it always invokes `scrollTo` on the link's hash with `hop = false`. -/
theorem C5_amended (o : Opts) (w : World) (e : ClickEvt)
    (happ : clickApplies o w e = true) :
    (clickHandler o w e).2 = true ∧
    (w.cur.hash = "" →
       (clickHandler o w e).1.back =
         { w.cur with state := some { jumpmark := some (.num w.vp.scrollTop) } } :: w.back ∧
       (clickHandler o w e).1.cur =
         { base := e.linkBase, hash := e.linkHash,
           state := some { jumpmark := some (.str e.linkHash) } }) ∧
    (w.cur.hash ≠ "" → w.cur.hash ≠ e.linkHash →
       (clickHandler o w e).1.back = w.cur :: w.back ∧
       (clickHandler o w e).1.cur =
         { base := e.linkBase, hash := e.linkHash,
           state := some { jumpmark := some (.str e.linkHash) } }) ∧
    (w.cur.hash = e.linkHash →
       (clickHandler o w e).1.back = w.back ∧
       (clickHandler o w e).1.cur = w.cur) ∧
    (clickHandler o w e).1.vp = scrollTo o w.doc w.vp (.str e.linkHash) false := by
  have hj : isJumpmark o e.linkHash = true := clickApplies_isJumpmark o w e happ
  have hne : e.linkHash ≠ "" := isJumpmark_ne_empty o e.linkHash hj
  refine ⟨by simp [clickHandler, happ], ?_, ?_, ?_, ?_⟩
  · intro h0
    have hneq : w.cur.hash ≠ e.linkHash := by
      rw [h0]; exact fun hh => hne hh.symm
    simp only [clickHandler, happ, if_true, if_pos h0]
    rw [if_pos (by simpa using hneq)]
    exact ⟨rfl, rfl⟩
  · intro h0 hneq
    simp only [clickHandler, happ, if_true, if_neg h0]
    rw [if_pos (by simpa using hneq)]
    exact ⟨rfl, rfl⟩
  · intro heq
    have h0 : ¬ w.cur.hash = "" := by rw [heq]; exact hne
    simp only [clickHandler, happ, if_true, if_neg h0]
    rw [if_neg (by simpa using heq)]
    exact ⟨rfl, rfl⟩
  · by_cases h0 : w.cur.hash = ""
    · have hneq : w.cur.hash ≠ e.linkHash := by
        rw [h0]; exact fun hh => hne hh.symm
      simp only [clickHandler, happ, if_true, if_pos h0]
      rw [if_pos (by simpa using hneq)]
    · by_cases hneq : w.cur.hash = e.linkHash
      · simp only [clickHandler, happ, if_true, if_neg h0]
        rw [if_neg (by simpa using hneq)]
      · simp only [clickHandler, happ, if_true, if_neg h0]
        rw [if_pos (by simpa using hneq)]

/-- Witness for C5 (amended): clicking `#!jump:b` from a hash-less address
at scroll 400 prevents default, snapshots 400 into the replaced entry now
at the top of the back stack, and pushes the `#!jump:b` entry. -/
theorem C5_amended_witness :
    clickApplies defaultOpts noHashWorld clickB = true ∧
    (clickHandler defaultOpts noHashWorld clickB).2 = true ∧
    (clickHandler defaultOpts noHashWorld clickB).1.back =
      [{ base := "http://example.com/", hash := "",
         state := some { jumpmark := some (.num 400) } }] ∧
    (clickHandler defaultOpts noHashWorld clickB).1.cur =
      { base := "http://example.com/", hash := "#!jump:b",
        state := some { jumpmark := some (.str "#!jump:b") } } :=
  ⟨by decide,
   (C5_amended defaultOpts noHashWorld clickB (by decide)).1,
   ((C5_amended defaultOpts noHashWorld clickB (by decide)).2.1 rfl).1,
   ((C5_amended defaultOpts noHashWorld clickB (by decide)).2.1 rfl).2⟩

/-- A resolved `scrollTo` always emits an optional single instantaneous
hop, then `stop`, then one `animate` towards the resolved offset. -/
theorem scrollToEffs_resolved (o : Opts) (d : Doc) (v : Viewport) (t : JTarget)
    (doHop : Bool) (F : ℚ) (hF : resolveOffset o d t = some F) :
    ∃ pre ease, scrollToEffs o d v t doHop = pre ++ [.stop, .animate F ease] ∧
      (pre = [] ∨ ∃ x, pre = [VpEff.setScroll x]) := by
  rcases hH : calcHopOffset o d.clientHeight with _ | H
  · refine ⟨[], "easeInOutQuad", ?_, Or.inl rfl⟩
    simp [scrollToEffs, hF, hH]
  · rcases doHop with _ | _
    · refine ⟨[], "easeInOutQuad", ?_, Or.inl rfl⟩
      simp [scrollToEffs, hF, hH]
    · by_cases hlt : H < |F - v.scrollTop|
      · by_cases hpos : F - v.scrollTop > 0
        · refine ⟨[.setScroll (F - H)], "easeOutQuad", ?_, Or.inr ⟨_, rfl⟩⟩
          simp [scrollToEffs, hF, hH, hlt, hpos]
        · refine ⟨[.setScroll (F + H)], "easeOutQuad", ?_, Or.inr ⟨_, rfl⟩⟩
          simp [scrollToEffs, hF, hH, hlt, hpos]
      · refine ⟨[], "easeInOutQuad", ?_, Or.inl rfl⟩
        simp [scrollToEffs, hF, hH, hlt]

/-- After a resolved `scrollTo`, exactly one animation is attached to the
viewport, targeting the resolved offset — whatever was running before. -/
theorem scrollTo_resolved_anims (o : Opts) (d : Doc) (v : Viewport) (t : JTarget)
    (doHop : Bool) (F : ℚ) (hF : resolveOffset o d t = some F) :
    ∃ ease, (scrollTo o d v t doHop).anims = [{ target := F, ease := ease }] := by
  obtain ⟨pre, ease, heq, hpre⟩ := scrollToEffs_resolved o d v t doHop F hF
  refine ⟨ease, ?_⟩
  unfold scrollTo
  rw [heq]
  rcases hpre with rfl | ⟨x, rfl⟩ <;> simp [applyEffs, applyEff]

/-- A resolved `scrollTo` settles at the resolved offset. -/
theorem settled_scrollTo (o : Opts) (d : Doc) (v : Viewport) (t : JTarget)
    (doHop : Bool) (F : ℚ) (hF : resolveOffset o d t = some F) :
    settledScrollTop (scrollTo o d v t doHop) = F := by
  obtain ⟨ease, h⟩ := scrollTo_resolved_anims o d v t doHop F hF
  simp [settledScrollTop, h]

theorem countAnimate_append (a b : List VpEff) :
    countAnimate (a ++ b) = countAnimate a + countAnimate b := by
  simp [countAnimate, List.filter_append]

/-- A resolved `scrollTo` emits exactly one `animate` operation. -/
theorem countAnimate_scrollToEffs (o : Opts) (d : Doc) (v : Viewport) (t : JTarget)
    (doHop : Bool) (F : ℚ) (hF : resolveOffset o d t = some F) :
    countAnimate (scrollToEffs o d v t doHop) = 1 := by
  obtain ⟨pre, ease, heq, hpre⟩ := scrollToEffs_resolved o d v t doHop F hF
  rw [heq, countAnimate_append]
  rcases hpre with rfl | ⟨x, rfl⟩ <;> simp [countAnimate]

/-- Claim C9: at most one scroll animation runs at a time: a `scrollTo`
that resolves a target stops any in-progress animation before starting the
new one (the `stop` operation precedes the single `animate` in its
operation sequence), leaving exactly one animation attached — the new
destination — even if one was already running; and the wheel handler
cancels any running animation without starting another and without moving
the scroll position. -/
theorem C9_single_animation (o : Opts) (d : Doc) (v : Viewport) (t : JTarget)
    (F : ℚ) (doHop : Bool) (hF : resolveOffset o d t = some F) :
    (∃ pre ease, scrollToEffs o d v t doHop = pre ++ [.stop, .animate F ease] ∧
       countAnimate pre = 0) ∧
    (∃ ease, (scrollTo o d v t doHop).anims = [{ target := F, ease := ease }]) ∧
    (∀ w : World, (wheelHandler w).vp.anims = [] ∧
       (wheelHandler w).vp.scrollTop = w.vp.scrollTop) := by
  refine ⟨?_, scrollTo_resolved_anims o d v t doHop F hF, ?_⟩
  · obtain ⟨pre, ease, heq, hpre⟩ := scrollToEffs_resolved o d v t doHop F hF
    refine ⟨pre, ease, heq, ?_⟩
    rcases hpre with rfl | ⟨x, rfl⟩ <;> simp [countAnimate]
  · intro w
    exact ⟨rfl, rfl⟩

/-- Witness for C9: a second `scrollTo` issued while an animation towards
99 is still running leaves exactly one animation, targeting 1850. -/
theorem C9_single_animation_witness :
    resolveOffset defaultOpts exDoc (.str "#!jump:section2") = some 1850 ∧
    (∃ ease,
      (scrollTo defaultOpts exDoc
        { scrollTop := 0, anims := [{ target := 99, ease := "easeInOutQuad" }] }
        (.str "#!jump:section2") false).anims = [{ target := 1850, ease := ease }]) :=
  ⟨exResolve,
   (C9_single_animation defaultOpts exDoc
     { scrollTop := 0, anims := [{ target := 99, ease := "easeInOutQuad" }] }
     (.str "#!jump:section2") 1850 false exResolve).2.1⟩

/-- Claim C6: a history-pop whose entry carries recorded plugin state sets
the suppression latch (whether or not animation ran, i.e. for either value
of `disablePopstateAnim`); the latch is cleared by its own timeout; a
hash-change arriving while the latch is set performs no scroll action and
no history replacement; hence a pop followed within the latch window by a
hash-change yields exactly one scroll animation, not two. -/
theorem C6_latch (o : Opts) (w : World) (st : HSt) (jv : JValue) (dp : Bool)
    (hst : w.cur.state = some st) (hv : st.jumpmark = some jv) :
    (popstateHandler o w).1.ignoreHashChangeEvent = true ∧
    (latchTimeout (popstateHandler o w).1).ignoreHashChangeEvent = false ∧
    (∀ w' : World, w'.ignoreHashChangeEvent = true →
       hashchangeHandler o w' dp = (w', [])) ∧
    (∀ n : ℚ, jv = .num n → o.disablePopstateAnim = false →
       countAnimate ((popstateHandler o w).2 ++
         (hashchangeHandler o (popstateHandler o w).1 dp).2) = 1) := by
  refine ⟨?_, rfl, ?_, ?_⟩
  · rcases hd : o.disablePopstateAnim with _ | _ <;>
      simp [popstateHandler, hst, hv, hd]
  · intro w' hw
    simp [hashchangeHandler, hw]
  · intro n hn hd
    subst hn
    have h1 : (popstateHandler o w).1.ignoreHashChangeEvent = true := by
      simp [popstateHandler, hst, hv, hd]
    have h3 : hashchangeHandler o (popstateHandler o w).1 dp = ((popstateHandler o w).1, []) := by
      simp [hashchangeHandler, h1]
    have h2 : (popstateHandler o w).2 = scrollToEffs o w.doc w.vp (.num n) false := by
      simp [popstateHandler, hst, hv, hd, jvalTarget]
    rw [h3, h2]
    simp only [List.append_nil]
    exact countAnimate_scrollToEffs o w.doc w.vp (.num n) false n rfl

/-- Witness for C6: landing on `popWorld` (snapshot 400) sets the latch, a
hash-change inside the window is suppressed, and exactly one animation is
started overall; the timeout then clears the latch. -/
theorem C6_latch_witness :
    popWorld.cur.state = some { jumpmark := some (.num 400) } ∧
    (popstateHandler defaultOpts popWorld).1.ignoreHashChangeEvent = true ∧
    (latchTimeout (popstateHandler defaultOpts popWorld).1).ignoreHashChangeEvent = false ∧
    countAnimate ((popstateHandler defaultOpts popWorld).2 ++
      (hashchangeHandler defaultOpts (popstateHandler defaultOpts popWorld).1 false).2) = 1 :=
  ⟨rfl,
   (C6_latch defaultOpts popWorld { jumpmark := some (.num 400) } (.num 400) false
     rfl rfl).1,
   (C6_latch defaultOpts popWorld { jumpmark := some (.num 400) } (.num 400) false
     rfl rfl).2.1,
   (C6_latch defaultOpts popWorld { jumpmark := some (.num 400) } (.num 400) false
     rfl rfl).2.2.2 400 rfl rfl⟩

theorem abTargetA : calcTargetOffset defaultOpts abDoc 1000 = 850 := by
  unfold calcTargetOffset
  rw [show abDoc.clientHeight = 1000 from rfl, exClip]
  norm_num [abDoc]

theorem abResolveA : resolveOffset defaultOpts abDoc (.str "#!jump:a") = some 850 := by
  have hj : isJumpmark defaultOpts "#!jump:a" = true := by decide
  have hel : getTargetElement defaultOpts abDoc "#!jump:a" = some 1000 := by decide
  simp only [resolveOffset, hj, if_true, hel, abTargetA]

theorem abTargetB : calcTargetOffset defaultOpts abDoc 2000 = 1850 := by
  unfold calcTargetOffset
  rw [show abDoc.clientHeight = 1000 from rfl, exClip]
  norm_num [abDoc]

theorem abResolveB : resolveOffset defaultOpts abDoc (.str "#!jump:b") = some 1850 := by
  have hj : isJumpmark defaultOpts "#!jump:b" = true := by decide
  have hel : getTargetElement defaultOpts abDoc "#!jump:b" = some 2000 := by decide
  simp only [resolveOffset, hj, if_true, hel, abTargetB]

/-- Landing on an entry with a numeric snapshot (popstate, animation
enabled) settles the scroll at the snapshot value. -/
theorem popstate_settled_num (o : Opts) (w : World) (n : ℚ)
    (hst : w.cur.state = some { jumpmark := some (.num n) })
    (hd : o.disablePopstateAnim = false) :
    settledScrollTop (popstateHandler o w).1.vp = n := by
  simp only [popstateHandler, hst, hd, jvalTarget, Bool.not_false, if_true]
  exact settled_scrollTo o w.doc w.vp (.num n) false n rfl

/-- Landing on an entry with a recorded hash (popstate, animation enabled)
settles the scroll at the hash's resolved offset. -/
theorem popstate_settled_str (o : Opts) (w : World) (s : String) (F : ℚ)
    (hst : w.cur.state = some { jumpmark := some (.str s) })
    (hd : o.disablePopstateAnim = false)
    (hres : resolveOffset o w.doc (.str s) = some F) :
    settledScrollTop (popstateHandler o w).1.vp = F := by
  simp only [popstateHandler, hst, hd, jvalTarget, Bool.not_false, if_true]
  exact settled_scrollTo o w.doc w.vp (.str s) false F hres

/-- The popstate handler never touches the history stack or the document:
it only scrolls, sets the latch, and switches scroll restoration. -/
theorem popstate_frame (o : Opts) (w : World) :
    (popstateHandler o w).1.back = w.back ∧
    (popstateHandler o w).1.cur = w.cur ∧
    (popstateHandler o w).1.fwd = w.fwd ∧
    (popstateHandler o w).1.doc = w.doc := by
  rcases hst : w.cur.state with _ | st
  · simp [popstateHandler, hst]
  · rcases hv : st.jumpmark with _ | jv
    · simp [popstateHandler, hst, hv]
    · rcases hd : o.disablePopstateAnim with _ | _ <;>
        simp [popstateHandler, hst, hv, hd]

/-- Shape of a handled click from a hash-less address: the current entry,
now carrying the scroll snapshot, is pushed down; the new hash entry
becomes current; `scrollTo` runs on the link's hash. -/
theorem clickHandler_spec (o : Opts) (w : World) (e : ClickEvt)
    (happ : clickApplies o w e = true) (h0 : w.cur.hash = "") :
    (clickHandler o w e).1 =
      { w with
        back := { w.cur with
          state := some { jumpmark := some (.num w.vp.scrollTop) } } :: w.back,
        cur := { base := e.linkBase, hash := e.linkHash,
                 state := some { jumpmark := some (.str e.linkHash) } },
        fwd := [],
        vp := scrollTo o w.doc w.vp (.str e.linkHash) false } := by
  have hj := clickApplies_isJumpmark o w e happ
  have hne := isJumpmark_ne_empty o e.linkHash hj
  have hneq : w.cur.hash ≠ e.linkHash := by
    rw [h0]; exact fun hh => hne hh.symm
  simp only [clickHandler, happ, if_true, if_pos h0]
  rw [if_pos (by simpa using hneq)]

/-- Counterexample to C8: in `hashWorld` a hash is already present, so the
click takes no scroll snapshot; popping back lands on the `#!jump:a` entry
and the pop handler scrolls to that hash's resolved offset 850 — not to
the pre-click scroll position 400. -/
theorem C8_counterexample :
    clickApplies defaultOpts hashWorld clickB = true ∧
    (historyBack postClickWorld).isSome = true ∧
    backWorld.cur = hashWorld.cur ∧
    settledScrollTop (popstateHandler defaultOpts backWorld).1.vp = 850 ∧
    hashWorld.vp.scrollTop = 400 ∧ ((850 : ℚ) ≠ 400) := by
  refine ⟨by decide, by decide, by decide, ?_, by decide, by norm_num⟩
  have hst : backWorld.cur.state = some { jumpmark := some (.str "#!jump:a") } := by decide
  have hdoc : backWorld.doc = abDoc := by decide
  refine popstate_settled_str defaultOpts backWorld "#!jump:a" 850 hst rfl ?_
  rw [hdoc]
  exact abResolveA

/-- Claim C8 (amended): when no hash was present before the click (so the
scroll snapshot is taken) and popstate animation is enabled, the handled
click pushes an entry such that popping back settles the scroll at the
pre-click position exactly, and popping forward again settles it at the
click target's resolved offset. -/
theorem C8_amended (o : Opts) (w : World) (e : ClickEvt) (F : ℚ)
    (hnohash : w.cur.hash = "")
    (happ : clickApplies o w e = true)
    (hanim : o.disablePopstateAnim = false)
    (hres : resolveOffset o w.doc (.str e.linkHash) = some F) :
    ∃ wb, historyBack (clickHandler o w e).1 = some wb ∧
      settledScrollTop (popstateHandler o wb).1.vp = w.vp.scrollTop ∧
      ∃ wf, historyForward (popstateHandler o wb).1 = some wf ∧
        settledScrollTop (popstateHandler o wf).1.vp = F := by
  rw [clickHandler_spec o w e happ hnohash]
  refine ⟨_, rfl, popstate_settled_num o _ w.vp.scrollTop rfl hanim, ?_⟩
  -- the world the back-pop landed on, before its popstate handler ran
  set wb : World :=
    { w with
      back := w.back,
      cur := { w.cur with state := some { jumpmark := some (.num w.vp.scrollTop) } },
      fwd := [{ base := e.linkBase, hash := e.linkHash,
                state := some { jumpmark := some (.str e.linkHash) } }],
      vp := scrollTo o w.doc w.vp (.str e.linkHash) false } with hwb
  have hfwd : (popstateHandler o wb).1.fwd =
      [{ base := e.linkBase, hash := e.linkHash,
         state := some { jumpmark := some (.str e.linkHash) } }] :=
    (popstate_frame o wb).2.2.1
  have hstep : historyForward (popstateHandler o wb).1 =
      some { (popstateHandler o wb).1 with
             cur := { base := e.linkBase, hash := e.linkHash,
                      state := some { jumpmark := some (.str e.linkHash) } },
             fwd := [],
             back := (popstateHandler o wb).1.cur :: (popstateHandler o wb).1.back } := by
    unfold historyForward
    rw [hfwd]
  refine ⟨_, hstep, ?_⟩
  have hdoc : (popstateHandler o wb).1.doc = w.doc := (popstate_frame o wb).2.2.2
  refine popstate_settled_str o _ e.linkHash F rfl hanim ?_
  show resolveOffset o (popstateHandler o wb).1.doc (JTarget.str e.linkHash) = some F
  rw [hdoc]
  exact hres

/-- Witness for C8 (amended): from `noHashWorld` (scroll 400, no hash),
clicking `#!jump:b` then popping back settles at 400; popping forward
settles at 1850. -/
theorem C8_amended_witness :
    noHashWorld.cur.hash = "" ∧
    clickApplies defaultOpts noHashWorld clickB = true ∧
    defaultOpts.disablePopstateAnim = false ∧
    resolveOffset defaultOpts noHashWorld.doc (.str "#!jump:b") = some 1850 ∧
    (∃ wb, historyBack (clickHandler defaultOpts noHashWorld clickB).1 = some wb ∧
      settledScrollTop (popstateHandler defaultOpts wb).1.vp = noHashWorld.vp.scrollTop ∧
      ∃ wf, historyForward (popstateHandler defaultOpts wb).1 = some wf ∧
        settledScrollTop (popstateHandler defaultOpts wf).1.vp = 1850) :=
  ⟨rfl, by decide, rfl, abResolveB,
   C8_amended defaultOpts noHashWorld clickB 1850 rfl (by decide) rfl abResolveB⟩

end Jumpmark
